import Mathlib

/-!
# Verification of the predictive-maintenance pipeline

Shallow embedding of the repository's core logic:

* `app/sensor_data.py` — `process_sensor_data` (anomaly scoring) and
  `store_data` (CSV/JSON persistence with alert duplication);
* `app/sensor_connector.py` — `generate_mock_data` (synthetic sample
  generator);
* `ml_model_monitor.py` — `ModelMonitor.check_for_changes` (hash-based
  change detection with backups, metrics and alerts).

Python floats are modelled as exact rationals (`ℚ`), Python ints as `ℤ`
or `Nat`. Wall-clock timestamps, logging, and the concrete file-system /
SMTP / docker side effects are modelled as explicit state or omitted
where no claim depends on them (each omission is noted at the relevant
definition).
-/

/-- Python's two-argument `min`: the first argument when the two are
equal. Used instead of Mathlib's lattice `min` so that terms stay
executable. -/
def ratMin (a b : ℚ) : ℚ := if a ≤ b then a else b

/-- Python's two-argument `max`: the first argument when the two are
equal. -/
def ratMax (a b : ℚ) : ℚ := if b ≤ a then a else b

namespace SensorData

/-- Input to `process_sensor_data`: a raw sensor dict. Each of the four
scored numeric fields and `machine_id` may be absent from the dict
(`data.get(key, default)` in the source supplies the default). -/
structure SensorInput where
  temperature : Option ℚ
  vibration : Option ℚ
  pressure : Option ℚ
  rpm : Option ℚ
  machine_id : Option String

/-- Output record of `process_sensor_data`. The `timestamp` key (wall
clock) is not modelled. `failure_probability` and `failure_type` are
`Option`s because the source adds those keys to the dict only when
`anomaly_detected` is true. -/
structure ProcessedData where
  machine_id : String
  temperature : ℚ
  vibration : ℚ
  pressure : ℚ
  rpm : ℚ
  vibration_to_rpm_ratio : ℚ
  temperature_pressure_ratio : ℚ
  temp_anomaly : Bool
  vibration_anomaly : Bool
  pressure_anomaly : Bool
  rpm_anomaly : Bool
  anomaly_detected : Bool
  failure_probability : Option ℚ
  failure_type : Option String

/-- The failure-probability accumulation of `process_sensor_data`
(sensor_data.py lines 74–93): starting from `0.0`, each matching rule
category adds its increment, in the source's fixed order. `c1` is the
temperature condition (`temp_anomaly and temperature > 90`), `c2` the
vibration condition (`vibration_anomaly and vibration > 5.0`), `c3` is
`pressure_anomaly`, `c4` is `rpm_anomaly`. -/
def failureProbAccum (c1 c2 c3 c4 : Bool) : ℚ :=
  let fp1 := if c1 then (0 : ℚ) + 0.3 else 0
  let fp2 := if c2 then fp1 + 0.4 else fp1
  let fp3 := if c3 then fp2 + 0.2 else fp2
  if c4 then fp3 + 0.1 else fp3

/-- The failure-type accumulation of `process_sensor_data`
(sensor_data.py lines 74–93): each matching category assigns its label
only when the type is still `"Unknown"` (the temperature branch assigns
unconditionally in the source, but it runs first, when the type is
necessarily still `"Unknown"`, so the embedded guard is equivalent; the
guard shape of the later branches is kept verbatim). -/
def failureTypeAccum (c1 c2 c3 c4 : Bool) : String :=
  let ft1 := if c1 then "Overheating" else "Unknown"
  let ft2 := if c2 then (if ft1 = "Unknown" then "Bearing Failure" else ft1) else ft1
  let ft3 := if c3 then (if ft2 = "Unknown" then "Pressure Issue" else ft2) else ft2
  if c4 then (if ft3 = "Unknown" then "Motor Issue" else ft3) else ft3

/-- Function `process_sensor_data` (sensor_data.py lines 15–96). Missing numeric
fields default to `0`, a missing machine id to `"unknown"`. Normal
ranges: temperature `(50, 90)`, vibration `(0.1, 5.0)`, pressure
`(0.8, 1.2)`, rpm `(1000, 3000)`; a flag is set when the value is
strictly below the lower or strictly above the upper bound. The failure
fields are added only when `anomaly_detected`, with the probability
capped at `0.95`. -/
def process_sensor_data (data : SensorInput) : ProcessedData :=
  let temperature := data.temperature.getD 0
  let vibration := data.vibration.getD 0
  let pressure := data.pressure.getD 0
  let rpm := data.rpm.getD 0
  let machine_id := data.machine_id.getD "unknown"
  let vibration_to_rpm_ratio := vibration / ratMax rpm 1
  let temperature_pressure_ratio := temperature / ratMax pressure 0.1
  let temp_anomaly : Bool := decide (temperature < 50) || decide (temperature > 90)
  let vibration_anomaly : Bool := decide (vibration < 0.1) || decide (vibration > 5)
  let pressure_anomaly : Bool := decide (pressure < 0.8) || decide (pressure > 1.2)
  let rpm_anomaly : Bool := decide (rpm < 1000) || decide (rpm > 3000)
  let anomaly_detected := temp_anomaly || vibration_anomaly || pressure_anomaly || rpm_anomaly
  let c1 := temp_anomaly && decide (temperature > 90)
  let c2 := vibration_anomaly && decide (vibration > 5)
  { machine_id := machine_id
    temperature := temperature
    vibration := vibration
    pressure := pressure
    rpm := rpm
    vibration_to_rpm_ratio := vibration_to_rpm_ratio
    temperature_pressure_ratio := temperature_pressure_ratio
    temp_anomaly := temp_anomaly
    vibration_anomaly := vibration_anomaly
    pressure_anomaly := pressure_anomaly
    rpm_anomaly := rpm_anomaly
    anomaly_detected := anomaly_detected
    failure_probability :=
      if anomaly_detected then
        some (ratMin (failureProbAccum c1 c2 pressure_anomaly rpm_anomaly) 0.95)
      else none
    failure_type :=
      if anomaly_detected then
        some (failureTypeAccum c1 c2 pressure_anomaly rpm_anomaly)
      else none }

/-- The temperature rule condition of `process_sensor_data`:
`temp_anomaly and temperature > temp_normal[1]`. -/
def tempAboveUpper (data : SensorInput) : Bool :=
  (process_sensor_data data).temp_anomaly && decide (data.temperature.getD 0 > 90)

/-- The vibration rule condition of `process_sensor_data`:
`vibration_anomaly and vibration > vibration_normal[1]`. -/
def vibrationAboveUpper (data : SensorInput) : Bool :=
  (process_sensor_data data).vibration_anomaly && decide (data.vibration.getD 0 > 5)

/-- The value `min(failure_probability, 0.95)` as stored by `process_sensor_data`
when an anomaly is detected, as a function of the four rule-category
conditions. -/
def ruleProbability (c1 c2 c3 c4 : Bool) : ℚ :=
  ratMin (failureProbAccum c1 c2 c3 c4) 0.95

/-- First matching category in the source's fixed evaluation order
(temperature, vibration, pressure, rpm), or `"Unknown"` if none
matches. -/
def firstMatchingType (c1 c2 c3 c4 : Bool) : String :=
  if c1 then "Overheating"
  else if c2 then "Bearing Failure"
  else if c3 then "Pressure Issue"
  else if c4 then "Motor Issue"
  else "Unknown"

/-- One per-machine CSV file of the data directory: the appended rows
and whether a header line was written. `store_data` writes the header
exactly when the file is first created (`header=not file_exists`). -/
structure CsvSinkFile where
  headerWritten : Bool
  rows : List ProcessedData

/-- The persistence state touched by `store_data`: per machine id, the
`<id>_sensor_data.csv` file, the `<id>_alerts.csv` file, and the
`<id>_latest_alert.json` snapshot (overwritten whole, so modelled as
the most recent record or `none` if never written). -/
structure SinkState where
  files : String → Option CsvSinkFile
  alertFiles : String → Option CsvSinkFile
  latestAlert : String → Option ProcessedData

/-- The call `df.to_csv(csv_file, mode='a', header=not file_exists)`: append one
record, creating the file (with header) when it does not exist. -/
def appendCsv (file : Option CsvSinkFile) (r : ProcessedData) : CsvSinkFile :=
  match file with
  | none => { headerWritten := true, rows := [r] }
  | some f => { headerWritten := f.headerWritten, rows := f.rows ++ [r] }

/-- Failure oracle for the three fallible persistence operations inside
`store_data`'s `try` block, in source order: the main CSV append, the
alerts CSV append, and the JSON snapshot write. A `true` component means
that operation raises. -/
structure SinkOracle where
  failMain : Bool
  failAlerts : Bool
  failJson : Bool

/-- Function `store_data` (sensor_data.py lines 98–137). The whole body is one
`try` block: the first raising operation aborts the remaining
operations, the handler logs (not modelled) and returns `False`;
otherwise `True` is returned. The alert CSV append and the JSON
snapshot overwrite happen only when `anomaly_detected` is truthy. -/
def store_data (st : SinkState) (r : ProcessedData) (o : SinkOracle) : Bool × SinkState :=
  if o.failMain then (false, st)
  else
    let mid := r.machine_id
    let st1 : SinkState :=
      { st with files := fun m => if m = mid then some (appendCsv (st.files m) r) else st.files m }
    if r.anomaly_detected then
      if o.failAlerts then (false, st1)
      else
        let st2 : SinkState :=
          { st1 with alertFiles :=
              fun m => if m = mid then some (appendCsv (st.alertFiles m) r) else st.alertFiles m }
        if o.failJson then (false, st2)
        else
          (true,
            { st2 with latestAlert := fun m => if m = mid then some r else st.latestAlert m })
    else (true, st1)

/-- A sink state with no files yet. -/
def emptySink : SinkState :=
  { files := fun _ => none, alertFiles := fun _ => none, latestAlert := fun _ => none }

/-- A concrete anomalous record (temperature above upper bound). -/
def alertedRecord : ProcessedData :=
  process_sensor_data ⟨some 95, some 2, some 1, some 2000, some "machine1"⟩

end SensorData

namespace SensorConnector

/-- The values drawn by the five `random.randint` calls of one
iteration of `generate_mock_data` (sensor_connector.py lines 92–97). -/
structure MockDraws where
  tool_wear : ℤ
  air_temp : ℤ
  process_temp : ℤ
  rotation_speed : ℤ
  torque : ℤ

/-- One dict put on the queue by `generate_mock_data`. The `timestamp`
key (wall clock) is not modelled. -/
structure MockSample where
  tool_wear : ℤ
  air_temp : ℤ
  process_temp : ℤ
  rotation_speed : ℤ
  torque : ℤ
  temp_diff : ℤ
  power : ℚ

/-- One iteration of `generate_mock_data` (sensor_connector.py lines
88–107) as a function of the drawn random values: the derived fields
`temp_diff` and `power` are computed at generation time from the drawn
values, with the literal constant `3.14159` of the source. -/
def generate_mock_data (d : MockDraws) : MockSample :=
  { tool_wear := d.tool_wear
    air_temp := d.air_temp
    process_temp := d.process_temp
    rotation_speed := d.rotation_speed
    torque := d.torque
    temp_diff := d.process_temp - d.air_temp
    power := 2 * 3.14159 * (d.rotation_speed : ℚ) * (d.torque : ℚ) / 60 }

/-- A mock sample viewed as input to `process_sensor_data`. The mock
dict's keys are `tool_wear`, `air_temp`, `process_temp`,
`rotation_speed`, `torque`, `timestamp`, `temp_diff` and `power` — none
of the keys `process_sensor_data` reads (`temperature`, `vibration`,
`pressure`, `rpm`, `machine_id`), so every `data.get(key, default)`
yields its default. -/
def mockToInput (_ : MockSample) : SensorData.SensorInput :=
  ⟨none, none, none, none, none⟩

/-- The concrete draws used to refute the `2π` reading of the power
formula: all five values inside the generator's `randint` ranges. -/
def piDraws : MockDraws :=
  { tool_wear := 0, air_temp := 290, process_temp := 300, rotation_speed := 3000, torque := 60 }

end SensorConnector

namespace Monitor

/-- The data rows of a monitored CSV file (`len(pd.read_csv(path))`).
The per-numeric-column mean/stddev statistics the monitor also records
are floating-point aggregates over the column values; no claim depends
on them and they are not modelled. `content` distinguishes files whose
row count coincides, standing for the raw bytes that are hashed. -/
structure CsvData where
  content : Nat
  rows : Nat
deriving DecidableEq

/-- The row-count part of the dict built by `_compare_csv_changes`
(ml_model_monitor.py lines 92–118): current and previous row counts and
`rows_changed = abs(len(current_df) - len(previous_df))`. The
`timestamp`, `column_stats` and optional `container_stats` entries are
wall-clock / floating-point / docker material and are not modelled. -/
structure ChangeReport where
  current_rows : Nat
  previous_rows : Nat
  rows_changed : Nat
deriving DecidableEq

/-- Method `_compare_csv_changes` applied to the current file and the
immediately preceding backup. -/
def compareCsvChanges (current previous : CsvData) : ChangeReport :=
  { current_rows := current.rows
    previous_rows := previous.rows
    rows_changed := ((current.rows : ℤ) - (previous.rows : ℤ)).natAbs }

/-- The mutable state of a `ModelMonitor`: the stored hash of the last
seen content (`None` when hashing failed), the chronological list of
backup snapshots in `backup_dir` (timestamped filenames sort in
creation order), the saved metrics reports, and the number of
`_send_alert` invocations. `last_check_time` (wall clock) is not
modelled. -/
structure MonitorState where
  lastHash : Option Nat
  backups : List CsvData
  metricsSaved : List ChangeReport
  alertsSent : Nat

/-- Constructor `ModelMonitor.__init__` (ml_model_monitor.py lines 26–52): stores
the current file hash and creates one initial backup snapshot. -/
def initMonitor (initialHash : Option Nat) (file : CsvData) : MonitorState :=
  { lastHash := initialHash, backups := [file], metricsSaved := [], alertsSent := 0 }

/-- Method `check_for_changes` (ml_model_monitor.py lines 165–202).
`currentHash` is what `_get_file_hash` returns for the monitored file
(`none` when hashing raised), `file` the file's current parsed
contents. If the hash is falsy or equals the stored hash, nothing
happens. Otherwise the current file is backed up; if at least two
backups now exist the current file is compared against the one before
the fresh backup (`backups[-2]`, i.e. the last pre-existing one), the
report is saved, and `_send_alert` is called exactly when
`rows_changed > 1000`; finally the stored hash is updated. -/
def check_for_changes (s : MonitorState) (currentHash : Option Nat) (file : CsvData) :
    MonitorState :=
  match currentHash with
  | none => s
  | some h =>
    if some h = s.lastHash then s
    else
      match s.backups.getLast? with
      | some previous =>
        let changes := compareCsvChanges file previous
        { lastHash := some h
          backups := s.backups ++ [file]
          metricsSaved := s.metricsSaved ++ [changes]
          alertsSent := if changes.rows_changed > 1000 then s.alertsSent + 1 else s.alertsSent }
      | none =>
        { lastHash := some h
          backups := s.backups ++ [file]
          metricsSaved := s.metricsSaved
          alertsSent := s.alertsSent }

/-- A 500-row monitored file (Scenario C, before the growth). -/
def fileA : CsvData := { content := 0, rows := 500 }

/-- A 1600-row monitored file with different content, hence a different
hash (Scenario C, after the growth). -/
def fileB : CsvData := { content := 1, rows := 1600 }

end Monitor

/-! ## Helper lemmas -/

theorem ratMin_eq_min (a b : ℚ) : ratMin a b = min a b := by
  simp [ratMin, min_def]

theorem ratMin_le_right (a b : ℚ) : ratMin a b ≤ b := by
  unfold ratMin
  split
  · assumption
  · exact le_refl b

theorem ratMin_mono_left {a b c : ℚ} (h : a ≤ b) : ratMin a c ≤ ratMin b c := by
  unfold ratMin
  split_ifs <;> first | assumption | linarith

namespace SensorData

theorem failureProbAccum_eq_sum (c1 c2 c3 c4 : Bool) :
    failureProbAccum c1 c2 c3 c4 =
      (if c1 then (0.3:ℚ) else 0) + (if c2 then (0.4:ℚ) else 0) +
      (if c3 then (0.2:ℚ) else 0) + (if c4 then (0.1:ℚ) else 0) := by
  cases c1 <;> cases c2 <;> cases c3 <;> cases c4 <;> norm_num [failureProbAccum]

theorem failureProbAccum_mono {c1 c2 c3 c4 c1' c2' c3' c4' : Bool}
    (h1 : c1 ≤ c1') (h2 : c2 ≤ c2') (h3 : c3 ≤ c3') (h4 : c4 ≤ c4') :
    failureProbAccum c1 c2 c3 c4 ≤ failureProbAccum c1' c2' c3' c4' := by
  rw [failureProbAccum_eq_sum, failureProbAccum_eq_sum]
  have g1 : (if c1 then (0.3:ℚ) else 0) ≤ (if c1' then (0.3:ℚ) else 0) := by
    cases c1 <;> cases c1' <;> first | exact absurd h1 (by decide) | norm_num
  have g2 : (if c2 then (0.4:ℚ) else 0) ≤ (if c2' then (0.4:ℚ) else 0) := by
    cases c2 <;> cases c2' <;> first | exact absurd h2 (by decide) | norm_num
  have g3 : (if c3 then (0.2:ℚ) else 0) ≤ (if c3' then (0.2:ℚ) else 0) := by
    cases c3 <;> cases c3' <;> first | exact absurd h3 (by decide) | norm_num
  have g4 : (if c4 then (0.1:ℚ) else 0) ≤ (if c4' then (0.1:ℚ) else 0) := by
    cases c4 <;> cases c4' <;> first | exact absurd h4 (by decide) | norm_num
  have := add_le_add (add_le_add (add_le_add g1 g2) g3) g4
  linarith

theorem failureTypeAccum_eq_first (c1 c2 c3 c4 : Bool) :
    failureTypeAccum c1 c2 c3 c4 = firstMatchingType c1 c2 c3 c4 := by
  cases c1 <;> cases c2 <;> cases c3 <;> cases c4 <;>
    simp +decide [failureTypeAccum, firstMatchingType]

/-- The probability field of `process_sensor_data`, expressed through
`ruleProbability` at the four rule-category conditions. -/
theorem failure_probability_link (data : SensorInput) :
    (process_sensor_data data).failure_probability =
      if (process_sensor_data data).anomaly_detected then
        some (ruleProbability (tempAboveUpper data) (vibrationAboveUpper data)
          (process_sensor_data data).pressure_anomaly (process_sensor_data data).rpm_anomaly)
      else none := rfl

/-- The type field of `process_sensor_data`, expressed through
`failureTypeAccum` at the four rule-category conditions. -/
theorem failure_type_link (data : SensorInput) :
    (process_sensor_data data).failure_type =
      if (process_sensor_data data).anomaly_detected then
        some (failureTypeAccum (tempAboveUpper data) (vibrationAboveUpper data)
          (process_sensor_data data).pressure_anomaly (process_sensor_data data).rpm_anomaly)
      else none := rfl

end SensorData

/-! ## Claim theorems: anomaly scorer -/

namespace SensorData

/-- Claim C1: for every input sample, `process_sensor_data` sets each
per-field anomaly flag exactly when that field's value lies outside its
documented normal range (temperature `[50, 90]`, vibration `[0.1, 5.0]`,
pressure `[0.8, 1.2]`, rpm `[1000, 3000]`), and `anomaly_detected` is
the logical OR of the four flags. -/
theorem anomaly_flags_match_documented_ranges (t v p r : ℚ) (m : Option String) :
    ((process_sensor_data ⟨some t, some v, some p, some r, m⟩).temp_anomaly = true ↔
      ¬ (50 ≤ t ∧ t ≤ 90)) ∧
    ((process_sensor_data ⟨some t, some v, some p, some r, m⟩).vibration_anomaly = true ↔
      ¬ (0.1 ≤ v ∧ v ≤ 5)) ∧
    ((process_sensor_data ⟨some t, some v, some p, some r, m⟩).pressure_anomaly = true ↔
      ¬ (0.8 ≤ p ∧ p ≤ 1.2)) ∧
    ((process_sensor_data ⟨some t, some v, some p, some r, m⟩).rpm_anomaly = true ↔
      ¬ (1000 ≤ r ∧ r ≤ 3000)) ∧
    ((process_sensor_data ⟨some t, some v, some p, some r, m⟩).anomaly_detected =
      ((process_sensor_data ⟨some t, some v, some p, some r, m⟩).temp_anomaly ||
       (process_sensor_data ⟨some t, some v, some p, some r, m⟩).vibration_anomaly ||
       (process_sensor_data ⟨some t, some v, some p, some r, m⟩).pressure_anomaly ||
       (process_sensor_data ⟨some t, some v, some p, some r, m⟩).rpm_anomaly)) := by
  refine ⟨?_, ?_, ?_, ?_, rfl⟩ <;>
    simp only [process_sensor_data, Option.getD_some, Bool.or_eq_true, decide_eq_true_eq,
      gt_iff_lt] <;>
    rw [not_and_or, not_le, not_le]

/-- Claim C2: `failure_probability` never exceeds `0.95`, it equals
`ruleProbability` at the four matching rule-category conditions
whenever an anomaly is detected, and `ruleProbability` is monotonically
non-decreasing in those conditions: adding a matching category never
decreases the probability. -/
theorem failure_probability_capped_and_monotone :
    (∀ data : SensorInput, (process_sensor_data data).failure_probability.getD 0 ≤ 0.95) ∧
    (∀ data : SensorInput, (process_sensor_data data).anomaly_detected = true →
      (process_sensor_data data).failure_probability =
        some (ruleProbability (tempAboveUpper data) (vibrationAboveUpper data)
          (process_sensor_data data).pressure_anomaly
          (process_sensor_data data).rpm_anomaly)) ∧
    (∀ c1 c2 c3 c4 c1' c2' c3' c4' : Bool,
      c1 ≤ c1' → c2 ≤ c2' → c3 ≤ c3' → c4 ≤ c4' →
      ruleProbability c1 c2 c3 c4 ≤ ruleProbability c1' c2' c3' c4') := by
  refine ⟨?_, ?_, ?_⟩
  · intro data
    rw [failure_probability_link]
    split
    · simpa [ruleProbability] using ratMin_le_right
        (failureProbAccum (tempAboveUpper data) (vibrationAboveUpper data)
          (process_sensor_data data).pressure_anomaly
          (process_sensor_data data).rpm_anomaly) 0.95
    · norm_num
  · intro data h
    rw [failure_probability_link, if_pos h]
  · intro c1 c2 c3 c4 c1' c2' c3' c4' h1 h2 h3 h4
    unfold ruleProbability
    exact ratMin_mono_left (failureProbAccum_mono h1 h2 h3 h4)

/-- Witness for C2: instantiating the monotonicity part at concrete
rule-condition vectors. -/
theorem failure_probability_capped_and_monotone_witness :
    ruleProbability false false false false ≤ ruleProbability true true true true :=
  failure_probability_capped_and_monotone.2.2 false false false false true true true true
    (by decide) (by decide) (by decide) (by decide)

/-- Claim C3: for every anomalous input sample, `failure_type` is the
first matching category in the fixed evaluation order temperature,
vibration, pressure, rpm; later matching categories never overwrite
it. -/
theorem failure_type_is_first_matching_category (data : SensorInput)
    (h : (process_sensor_data data).anomaly_detected = true) :
    (process_sensor_data data).failure_type =
      some (firstMatchingType (tempAboveUpper data) (vibrationAboveUpper data)
        (process_sensor_data data).pressure_anomaly
        (process_sensor_data data).rpm_anomaly) := by
  rw [failure_type_link, if_pos h, failureTypeAccum_eq_first]

/-- Witness for C3 at a sample in which all four categories match:
the temperature category, first in the order, claims the type. -/
theorem failure_type_is_first_matching_category_witness :
    (process_sensor_data ⟨some 95, some 6, some 0.5, some 500, none⟩).failure_type =
      some "Overheating" :=
  (failure_type_is_first_matching_category ⟨some 95, some 6, some 0.5, some 500, none⟩
    (by norm_num [process_sensor_data])).trans
    (by simp +decide [firstMatchingType, tempAboveUpper, process_sensor_data])

/-- Claim C4: when all four fields lie inside their normal ranges the
returned record has `anomaly_detected = false` and carries neither a
`failure_probability` nor a `failure_type`. -/
theorem no_failure_fields_without_anomaly (t v p r : ℚ) (m : Option String)
    (ht1 : 50 ≤ t) (ht2 : t ≤ 90) (hv1 : 0.1 ≤ v) (hv2 : v ≤ 5)
    (hp1 : 0.8 ≤ p) (hp2 : p ≤ 1.2) (hr1 : 1000 ≤ r) (hr2 : r ≤ 3000) :
    (process_sensor_data ⟨some t, some v, some p, some r, m⟩).anomaly_detected = false ∧
    (process_sensor_data ⟨some t, some v, some p, some r, m⟩).failure_probability = none ∧
    (process_sensor_data ⟨some t, some v, some p, some r, m⟩).failure_type = none := by
  have ha : (process_sensor_data ⟨some t, some v, some p, some r, m⟩).anomaly_detected = false := by
    simp [process_sensor_data, not_lt.mpr ht1, not_lt.mpr ht2, not_lt.mpr hv1, not_lt.mpr hv2,
      not_lt.mpr hp1, not_lt.mpr hp2, not_lt.mpr hr1, not_lt.mpr hr2]
  refine ⟨ha, ?_, ?_⟩
  · rw [failure_probability_link, if_neg (by simp [ha])]
  · rw [failure_type_link, if_neg (by simp [ha])]

/-- Witness for C4, Scenario B of the specification: the sample
`{temperature: 70, vibration: 2.0, pressure: 1.0, rpm: 2000}`. -/
theorem no_failure_fields_without_anomaly_witness :
    (process_sensor_data ⟨some 70, some 2, some 1, some 2000, none⟩).anomaly_detected = false ∧
    (process_sensor_data ⟨some 70, some 2, some 1, some 2000, none⟩).failure_probability = none ∧
    (process_sensor_data ⟨some 70, some 2, some 1, some 2000, none⟩).failure_type = none :=
  no_failure_fields_without_anomaly 70 2 1 2000 none (by norm_num) (by norm_num)
    (by norm_num) (by norm_num) (by norm_num) (by norm_num) (by norm_num) (by norm_num)

/-- Claim C10: when the only anomalies are temperature below `50`
and/or vibration below `0.1` (pressure and rpm in range), the record is
anomalous but gets `failure_probability = 0.0` and
`failure_type = "Unknown"`: no accumulation rule covers
below-lower-bound temperature or vibration. -/
theorem below_lower_bound_yields_unknown_zero (t v p r : ℚ) (m : Option String)
    (hlow : t < 50 ∨ v < 0.1) (ht2 : t ≤ 90) (hv2 : v ≤ 5)
    (hp1 : 0.8 ≤ p) (hp2 : p ≤ 1.2) (hr1 : 1000 ≤ r) (hr2 : r ≤ 3000) :
    (process_sensor_data ⟨some t, some v, some p, some r, m⟩).anomaly_detected = true ∧
    (process_sensor_data ⟨some t, some v, some p, some r, m⟩).failure_probability = some 0 ∧
    (process_sensor_data ⟨some t, some v, some p, some r, m⟩).failure_type = some "Unknown" := by
  have ha : (process_sensor_data ⟨some t, some v, some p, some r, m⟩).anomaly_detected = true := by
    rcases hlow with h | h <;> simp [process_sensor_data, h]
  have hc1 : tempAboveUpper ⟨some t, some v, some p, some r, m⟩ = false := by
    simp [tempAboveUpper, not_lt.mpr ht2]
  have hc2 : vibrationAboveUpper ⟨some t, some v, some p, some r, m⟩ = false := by
    simp [vibrationAboveUpper, not_lt.mpr hv2]
  have hc3 : (process_sensor_data ⟨some t, some v, some p, some r, m⟩).pressure_anomaly = false := by
    simp [process_sensor_data, not_lt.mpr hp1, not_lt.mpr hp2]
  have hc4 : (process_sensor_data ⟨some t, some v, some p, some r, m⟩).rpm_anomaly = false := by
    simp [process_sensor_data, not_lt.mpr hr1, not_lt.mpr hr2]
  refine ⟨ha, ?_, ?_⟩
  · rw [failure_probability_link, if_pos ha, hc1, hc2, hc3, hc4]
    norm_num [ruleProbability, failureProbAccum, ratMin]
  · rw [failure_type_link, if_pos ha, hc1, hc2, hc3, hc4]
    rfl

/-- Witness for C10 at temperature `40` (below the lower bound) with
the other three fields in range. -/
theorem below_lower_bound_yields_unknown_zero_witness :
    (process_sensor_data ⟨some 40, some 2, some 1, some 2000, none⟩).anomaly_detected = true ∧
    (process_sensor_data ⟨some 40, some 2, some 1, some 2000, none⟩).failure_probability =
      some 0 ∧
    (process_sensor_data ⟨some 40, some 2, some 1, some 2000, none⟩).failure_type =
      some "Unknown" :=
  below_lower_bound_yields_unknown_zero 40 2 1 2000 none (Or.inl (by norm_num)) (by norm_num)
    (by norm_num) (by norm_num) (by norm_num) (by norm_num) (by norm_num)

end SensorData

/-! ## Claim theorems: mock generator -/

namespace SensorConnector

open SensorData

/-- Claim C8 (amended): every generated mock sample satisfies
`temp_diff = process_temp - air_temp` and
`power = 2 · 3.14159 · rotation_speed · torque / 60` — the source
approximates `π` by the literal `3.14159` — both computed at generation
time from the drawn values. -/
theorem mock_derived_fields (d : MockDraws) :
    (generate_mock_data d).temp_diff = d.process_temp - d.air_temp ∧
    (generate_mock_data d).power = 6.28318 * (d.rotation_speed : ℚ) * (d.torque : ℚ) / 60 := by
  constructor
  · rfl
  · show 2 * 3.14159 * (d.rotation_speed : ℚ) * (d.torque : ℚ) / 60 = _
    ring_nf

/-- Counterexample to Claim C8 as stated: at the in-range draws
`piDraws` (rotation speed 3000, torque 60) the generated `power` does
not equal `2π·rotation_speed·torque/60` with the real `π`, because the
source multiplies by the literal `3.14159 < π`. -/
theorem mock_power_is_not_two_pi :
    ¬ (((generate_mock_data piDraws).power : ℝ) =
        2 * Real.pi * (piDraws.rotation_speed : ℝ) * (piDraws.torque : ℝ) / 60) := by
  intro h
  have hp : ((generate_mock_data piDraws).power : ℝ) = 18849.54 := by
    norm_num [generate_mock_data, piDraws]
  rw [hp] at h
  simp only [piDraws] at h
  push_cast at h
  have hπ := Real.pi_gt_d6
  nlinarith [hπ]

/-- Claim C9: `process_sensor_data` substitutes `0` for each of the
four scored fields missing from its input, `0` is outside every normal
range, and every mock-generator record lacks all four scored fields —
so every mock sample is flagged anomalous on all four fields. -/
theorem mock_records_trip_every_flag (d : MockDraws) :
    (process_sensor_data (mockToInput (generate_mock_data d))).temperature = 0 ∧
    (process_sensor_data (mockToInput (generate_mock_data d))).vibration = 0 ∧
    (process_sensor_data (mockToInput (generate_mock_data d))).pressure = 0 ∧
    (process_sensor_data (mockToInput (generate_mock_data d))).rpm = 0 ∧
    (process_sensor_data (mockToInput (generate_mock_data d))).temp_anomaly = true ∧
    (process_sensor_data (mockToInput (generate_mock_data d))).vibration_anomaly = true ∧
    (process_sensor_data (mockToInput (generate_mock_data d))).pressure_anomaly = true ∧
    (process_sensor_data (mockToInput (generate_mock_data d))).rpm_anomaly = true ∧
    (process_sensor_data (mockToInput (generate_mock_data d))).anomaly_detected = true := by
  norm_num [process_sensor_data, mockToInput]

end SensorConnector

/-! ## Claim theorems: sink -/

namespace SensorData

/-- Claim C5: `store_data` appends to the main per-machine CSV
unconditionally, writing a header only when the file did not already
exist; the alert CSV append and the latest-alert JSON overwrite happen
exactly when `anomaly_detected` is true; and the result is `False`
exactly when one of the attempted persistence operations raised — the
exception is swallowed, never propagated. -/
theorem store_data_effects (st : SinkState) (r : ProcessedData) (o : SinkOracle) :
    ((store_data st r o).1 = false ↔
      (o.failMain = true ∨
        (r.anomaly_detected = true ∧ (o.failAlerts = true ∨ o.failJson = true)))) ∧
    (o.failMain = false →
      (store_data st r o).2.files r.machine_id = some (appendCsv (st.files r.machine_id) r)) ∧
    ((appendCsv none r).headerWritten = true ∧ (appendCsv none r).rows = [r]) ∧
    (∀ f : CsvSinkFile, (appendCsv (some f) r).headerWritten = f.headerWritten ∧
      (appendCsv (some f) r).rows = f.rows ++ [r]) ∧
    ((store_data st r o).1 = true → r.anomaly_detected = true →
      (store_data st r o).2.alertFiles r.machine_id =
        some (appendCsv (st.alertFiles r.machine_id) r) ∧
      (store_data st r o).2.latestAlert r.machine_id = some r) ∧
    (r.anomaly_detected = false →
      (store_data st r o).2.alertFiles = st.alertFiles ∧
      (store_data st r o).2.latestAlert = st.latestAlert) := by
  rcases o with ⟨fm, fa, fj⟩
  cases fm <;> cases fa <;> cases fj <;> cases ha : r.anomaly_detected <;>
    simp_all [store_data, appendCsv]

/-- Witness for C5: on an empty sink with no failing operation, the
main CSV of the record's machine is created with its header and the one
appended row. -/
theorem store_data_effects_witness :
    (store_data emptySink alertedRecord ⟨false, false, false⟩).2.files
        alertedRecord.machine_id =
      some (appendCsv (emptySink.files alertedRecord.machine_id) alertedRecord) :=
  (store_data_effects emptySink alertedRecord ⟨false, false, false⟩).2.1 rfl

end SensorData

/-! ## Claim theorems: change-detection monitor -/

namespace Monitor

/-- A check whose current hash equals the stored hash (or whose hashing
failed) changes nothing at all. -/
theorem check_for_changes_of_hash_eq (s : MonitorState) (cur : Option Nat) (f : CsvData)
    (h : cur = s.lastHash) : check_for_changes s cur f = s := by
  cases cur with
  | none => rfl
  | some hsh =>
    simp only [check_for_changes]
    rw [if_pos h]

/-- Claim C6: when the monitored file's hash equals the stored hash,
`check_for_changes` has no side effects — no backup, no report, no
alert, no state change at all; so initializing the monitor and running
the check twice on the unmodified file leaves exactly the one snapshot
made at initialization, no reports and no alerts. -/
theorem unchanged_hash_is_side_effect_free :
    (∀ (s : MonitorState) (cur : Option Nat) (f : CsvData),
      cur = s.lastHash → check_for_changes s cur f = s) ∧
    (∀ (h : Nat) (f : CsvData),
      (check_for_changes (check_for_changes (initMonitor (some h) f) (some h) f)
          (some h) f).backups.length = 1 ∧
      (check_for_changes (check_for_changes (initMonitor (some h) f) (some h) f)
          (some h) f).metricsSaved = [] ∧
      (check_for_changes (check_for_changes (initMonitor (some h) f) (some h) f)
          (some h) f).alertsSent = 0) := by
  refine ⟨check_for_changes_of_hash_eq, ?_⟩
  intro h f
  have h1 : check_for_changes (initMonitor (some h) f) (some h) f = initMonitor (some h) f :=
    check_for_changes_of_hash_eq _ _ _ rfl
  rw [h1, h1]
  exact ⟨rfl, rfl, rfl⟩

/-- Witness for C6: a concrete monitor state checked against its own
stored hash is returned unchanged. -/
theorem unchanged_hash_is_side_effect_free_witness :
    check_for_changes (initMonitor (some 7) fileA) (some 7) fileA =
      initMonitor (some 7) fileA :=
  unchanged_hash_is_side_effect_free.1 (initMonitor (some 7) fileA) (some 7) fileA rfl

/-- Claim C7: when a change is detected (fresh hash differs from the
stored one) and the computed report has `rows_changed > 1000`, exactly
one alert is raised and exactly one report is saved for that detected
change; re-running the check on the now-unmodified file performs
nothing further. -/
theorem change_alert_raised_exactly_once (s : MonitorState) (h : Nat) (f p : CsvData)
    (hne : ¬ (some h = s.lastHash)) (hlast : s.backups.getLast? = some p)
    (hbig : (compareCsvChanges f p).rows_changed > 1000) :
    (check_for_changes s (some h) f).alertsSent = s.alertsSent + 1 ∧
    (check_for_changes s (some h) f).metricsSaved =
      s.metricsSaved ++ [compareCsvChanges f p] ∧
    check_for_changes (check_for_changes s (some h) f) (some h) f =
      check_for_changes s (some h) f := by
  have hstep : check_for_changes s (some h) f =
      { lastHash := some h
        backups := s.backups ++ [f]
        metricsSaved := s.metricsSaved ++ [compareCsvChanges f p]
        alertsSent := s.alertsSent + 1 } := by
    simp only [check_for_changes]
    rw [if_neg hne, hlast]
    simp [hbig]
  refine ⟨by rw [hstep], by rw [hstep], ?_⟩
  rw [hstep]
  exact check_for_changes_of_hash_eq _ _ _ rfl

/-- Witness for C7, Scenario C of the specification: a file growing
from 500 to 1600 rows between two consecutive checks yields a report
with `rows_changed = 1100` and exactly one alert; a third check on the
unmodified file adds nothing. -/
theorem change_alert_raised_exactly_once_witness :
    (compareCsvChanges fileB fileA).rows_changed = 1100 ∧
    ((check_for_changes (initMonitor (some 0) fileA) (some 1) fileB).alertsSent =
        (initMonitor (some 0) fileA).alertsSent + 1 ∧
      (check_for_changes (initMonitor (some 0) fileA) (some 1) fileB).metricsSaved =
        (initMonitor (some 0) fileA).metricsSaved ++ [compareCsvChanges fileB fileA] ∧
      check_for_changes (check_for_changes (initMonitor (some 0) fileA) (some 1) fileB)
          (some 1) fileB =
        check_for_changes (initMonitor (some 0) fileA) (some 1) fileB) :=
  ⟨by decide,
    change_alert_raised_exactly_once (initMonitor (some 0) fileA) 1 fileB fileA
      (by decide) (by decide) (by decide)⟩

end Monitor
